import Mathlib

/-!
Verification of the license-scanner import and resource layers.

The Go sources are shallowly embedded: Go strings and byte slices become
`List Char`, filesystem and collaborator calls become explicit environment
records, and the import pipeline's writes become an explicit event trace.
Parts of the program that are documented in the specification but whose
sources are not available (the template compiler's scanner, the
static-block extractor and the matching semantics, the precheck
serializer, the configurer constants) are modelled from the specification
and marked as such in their doc comments.
-/

/-- Go strings and byte slices are modelled as lists of characters. -/
abbrev GoStr := List Char

/-- The characters of a Lean string literal, used to write Go string
constants. -/
def gs (s : String) : GoStr := s.data

/-- Go `path.IsAbs`: a path is absolute when it begins with a slash. -/
def isAbs (p : GoStr) : Bool := (gs "/").isPrefixOf p

/-- Go `path.Join` on two elements, restricted to components that are
already clean (`path.Clean` is the identity on those): empty components
are dropped and the rest are joined with a slash. -/
def pathJoin (a b : GoStr) : GoStr :=
  if a = [] then b else if b = [] then a else a ++ gs "/" ++ b

/-- Go `strings.TrimSuffix`. -/
def trimSuffix (s suff : GoStr) : GoStr :=
  if suff.isSuffixOf s then s.take (s.length - suff.length) else s

/-- Go `strings.TrimPrefix`. -/
def trimPfx (s p : GoStr) : GoStr :=
  if p.isPrefixOf s then s.drop p.length else s

/-- Go `strings.HasPrefix`. -/
def hasPfx (s p : GoStr) : Bool := p.isPrefixOf s

/-- A viper configuration, as the importer and resources packages use it:
a map from flag name to its string value (`cfg.GetString`). -/
abbrev Config := GoStr → GoStr

/-- Modelled from the spec: the flag-name constants of the `configurer`
package, which is not among the sources. `importSPDX` reads the add-all
flag with the literal name "addAll"; the remaining names are immaterial
to every claim. -/
def AddAllFlag : GoStr := gs "addAll"

/-- Modelled from the spec: the SPDX path flag name (`configurer`). -/
def SpdxPathFlag : GoStr := gs "spdxPath"

/-- Modelled from the spec: the embedded-SPDX flag name (`configurer`). -/
def SpdxFlag : GoStr := gs "spdx"

/-- Modelled from the spec: the custom path flag name (`configurer`). -/
def CustomPathFlag : GoStr := gs "customPath"

/-- Modelled from the spec: the embedded-custom flag name (`configurer`). -/
def CustomFlag : GoStr := gs "custom"

/-- Modelled from the spec: the `configurer.DefaultResource` constant, the
flag value naming the embedded default resource set. -/
def DefaultResource : GoStr := gs "default"

/-- Which of the two interchangeable resource readers `getFileReader`
selects: the embedded bundle (`embeddedFS`) or the `os`-backed filesystem
reader. -/
inductive SelectedReader
  | embedded
  | filesystem
  deriving DecidableEq

/-- The operations of the Go `resourceReader` interface (`ReadDir`,
`ReadFile`), as abstract functions. -/
structure ReaderImpl where
  readDir : GoStr → Except GoStr (List GoStr)
  readFile : GoStr → Except GoStr GoStr

/-- The two reader implementations available to the resources package. -/
structure ReaderEnv where
  embeddedFS : ReaderImpl
  osReader : ReaderImpl

/-- Interpret a selection as its reader implementation. -/
def ReaderEnv.resolve (renv : ReaderEnv) : SelectedReader → ReaderImpl
  | .embedded => renv.embeddedFS
  | .filesystem => renv.osReader

/-- `getFileReader` (resources.go): the embedded reader under the
embedded path when the path flag is empty, otherwise the filesystem
reader under the configured path. -/
def getFileReader (cfg : Config) (pathFlag embeddedFlag : GoStr) :
    SelectedReader × GoStr :=
  let pathValue := cfg pathFlag
  if pathValue = [] then (.embedded, pathJoin embeddedFlag (cfg embeddedFlag))
  else (.filesystem, pathValue)

/-- `getSPDXReader` (resources.go). -/
def getSPDXReader (cfg : Config) : SelectedReader × GoStr :=
  getFileReader cfg SpdxPathFlag SpdxFlag

/-- `getCustomReader` (resources.go). -/
def getCustomReader (cfg : Config) : SelectedReader × GoStr :=
  getFileReader cfg CustomPathFlag CustomFlag

/-- The `Resources` struct (resources.go): configuration plus the reader
and base path selected once at construction for SPDX and custom data. -/
structure Resources where
  config : Config
  spdxReader : ReaderImpl
  spdxPath : GoStr
  customReader : ReaderImpl
  customPath : GoStr

/-- `NewResources` (resources.go). -/
def NewResources (renv : ReaderEnv) (cfg : Config) : Resources :=
  let s := getSPDXReader cfg
  let c := getCustomReader cfg
  ⟨cfg, renv.resolve s.1, s.2, renv.resolve c.1, c.2⟩

/-- `getSPDXTemplateFilePath` (resources.go): `<id>.template.txt` under the
template directory, with a `deprecated_` name marker when deprecated. -/
def getSPDXTemplateFilePath (id : GoStr) (isDeprecated : Bool)
    (templatePath : GoStr) : GoStr :=
  let f := id ++ gs ".template.txt"
  let f := if isDeprecated then gs "deprecated_" ++ f else f
  pathJoin templatePath f

/-- `getSPDXPreCheckFilePath` (resources.go): `<id>.json` under the
precheck directory, with a `deprecated_` name marker when deprecated. -/
def getSPDXPreCheckFilePath (id : GoStr) (isDeprecated : Bool)
    (preCheckPath : GoStr) : GoStr :=
  let f := id ++ gs ".json"
  let f := if isDeprecated then gs "deprecated_" ++ f else f
  pathJoin preCheckPath f

/-- `Resources.ReadSPDXTemplateFile` (resources.go): the reader's result
and the file path used. -/
def Resources.ReadSPDXTemplateFile (r : Resources) (id : GoStr)
    (isDeprecated : Bool) : Except GoStr GoStr × GoStr :=
  let templatePath := pathJoin r.spdxPath (gs "template")
  let f := getSPDXTemplateFilePath id isDeprecated templatePath
  (r.spdxReader.readFile f, f)

/-- `Resources.ReadSPDXPreCheckFile` (resources.go). -/
def Resources.ReadSPDXPreCheckFile (r : Resources) (id : GoStr)
    (isDeprecated : Bool) : Except GoStr GoStr :=
  let preCheckPath := pathJoin r.spdxPath (gs "precheck")
  let f := getSPDXPreCheckFilePath id isDeprecated preCheckPath
  r.spdxReader.readFile f

/-- `getResourcesWritePath` (resources.go): the destination root for
writes; embedded resources live under the package directory `thisDir`,
relative paths hang off the repository root above it. -/
def getResourcesWritePath (cfg : Config) (pathFlag embeddedFlag thisDir : GoStr) :
    GoStr :=
  let pathValue := cfg pathFlag
  if pathValue = [] then pathJoin (pathJoin thisDir embeddedFlag) (cfg embeddedFlag)
  else if isAbs pathValue then pathValue
  else pathJoin (pathJoin thisDir (gs "..")) pathValue

/-- The filesystem effects `mkdirAll` (resources.go) performs per
directory: the result of `os.MkdirAll`, and the `os.ReadDir` listing
observed right after that creation. -/
structure FSEnv where
  mkdir : GoStr → Option GoStr
  readDirAfter : GoStr → Except GoStr (List GoStr)

/-- The loop of `mkdirAll` (resources.go): create each destination
subdirectory in order; fail when creation fails, when the fresh listing
fails, or when the listing is non-empty. -/
def mkdirAllLoop (fs : FSEnv) (destPath : GoStr) : List GoStr → Option GoStr
  | [] => none
  | dir :: rest =>
    let destSubDir := pathJoin destPath dir
    match fs.mkdir destSubDir with
    | some e => some (gs "cannot create destination dir: " ++ e)
    | none =>
      match fs.readDirAfter destSubDir with
      | .error e => some (gs "cannot read destination dir: " ++ e)
      | .ok des =>
        if des.length > 0 then some (gs "destination dir is not empty: " ++ destSubDir)
        else mkdirAllLoop fs destPath rest

/-- `mkdirAll` (resources.go). -/
def mkdirAll (fs : FSEnv) (cfg : Config) (pathFlag embeddedFlag thisDir : GoStr)
    (dirs : List GoStr) : Option GoStr :=
  mkdirAllLoop fs (getResourcesWritePath cfg pathFlag embeddedFlag thisDir) dirs

/-- `MkdirAllSPDX` (resources.go). -/
def MkdirAllSPDX (fs : FSEnv) (cfg : Config) (thisDir : GoStr) : Option GoStr :=
  mkdirAll fs cfg SpdxPathFlag SpdxFlag thisDir
    [gs "template", gs "precheck", gs "json", gs "testdata", gs "testdata/invalid"]

/-- `MkdirAllCustom` (resources.go). -/
def MkdirAllCustom (fs : FSEnv) (cfg : Config) (thisDir id : GoStr) : Option GoStr :=
  mkdirAll fs cfg CustomPathFlag CustomFlag thisDir [gs "license_patterns/" ++ id]

/-- Modelled from the spec: the template compiler's scanner is not among
the sources (only its tests and callers are). A raw segment of a scanned
template: a literal run, or a variable marker's body — the text standing
between the opening and the closing double-bracket delimiters. -/
inductive RawSeg
  | lit (text : GoStr)
  | marker (body : GoStr)
  deriving DecidableEq

/-- Modelled from the spec: the compiler's error taxonomy (spec 4.2) — an
unterminated variable marker, or an invalid embedded match fragment. -/
inductive CompileError
  | unterminatedVariable
  | invalidMatchPattern (fragment : GoStr)
  deriving DecidableEq

/-- Scanner states of the escape-aware delimiter state machine (spec 9):
inside a literal run, inside a marker, or inside a marker right after a
backslash. -/
inductive ScanState
  | inLiteral
  | inMarker
  | inMarkerEscaped
  deriving DecidableEq

/-- Prepend a character to the leading literal run of a scan result,
opening a fresh literal when none is in progress. -/
def consToLit (c : Char) : List RawSeg → List RawSeg
  | .lit t :: rest => .lit (c :: t) :: rest
  | segs => .lit [c] :: segs

/-- Prepend a character to the leading marker body of a scan result. -/
def consToMarker (c : Char) : List RawSeg → List RawSeg
  | .marker b :: rest => .marker (c :: b) :: rest
  | segs => segs

/-- Modelled from the spec: the escape-aware template scan (spec 4.2 step
1 and spec 9). `<<` opens a marker, an unescaped `>>` closes it, a
backslash inside a marker escapes the next character, and input ending
inside a marker is an unterminated-variable compile error. -/
def scan1 : ScanState → GoStr → Except CompileError (List RawSeg)
  | .inLiteral, [] => .ok []
  | .inLiteral, '<' :: '<' :: rest => scan1 .inMarker rest
  | .inLiteral, c :: rest => (scan1 .inLiteral rest).map (consToLit c)
  | .inMarker, [] => .error .unterminatedVariable
  | .inMarker, '\\' :: rest => (scan1 .inMarkerEscaped rest).map (consToMarker '\\')
  | .inMarker, '>' :: '>' :: rest => (scan1 .inLiteral rest).map (fun segs => .marker [] :: segs)
  | .inMarker, c :: rest => (scan1 .inMarker rest).map (consToMarker c)
  | .inMarkerEscaped, [] => .error .unterminatedVariable
  | .inMarkerEscaped, c :: rest => (scan1 .inMarker rest).map (consToMarker c)

/-- Scan a whole template, starting in a literal run. -/
def scanTemplate (s : GoStr) : Except CompileError (List RawSeg) :=
  scan1 .inLiteral s

/-- Reassemble the exact source text a scan result stands for: literal
runs verbatim, marker bodies re-delimited. -/
def reconstruct : List RawSeg → GoStr
  | [] => []
  | .lit t :: rest => t ++ reconstruct rest
  | .marker b :: rest => gs "<<" ++ b ++ gs ">>" ++ reconstruct rest

/-- The invariant tied to each scanner state: a finished scan reassembles
to its input; a scan inside a marker reassembles to the input once the
leading marker's missing text is accounted for. -/
def scanInv : ScanState → List RawSeg → GoStr → Prop
  | .inLiteral, segs, s => reconstruct segs = s
  | .inMarker, segs, s =>
    ∃ b rest, segs = .marker b :: rest ∧ b ++ gs ">>" ++ reconstruct rest = s
  | .inMarkerEscaped, segs, s =>
    ∃ b rest, segs = .marker b :: rest ∧ b ++ gs ">>" ++ reconstruct rest = s

/-- The D-FSL-1.0 variable-marker fragment from the importer test: its
`match` attribute holds an escaped closing delimiter inside an
alternation. -/
def dfslTemplate : GoStr :=
  gs "Artistic control of <<var;name=\"x\";original=\"y\";match=\"(\\)\\>|\\))?\">> the license."

/-- The segments the escape-aware scan yields for `dfslTemplate`: the
marker body keeps the whole `match` attribute, escapes included. -/
def dfslSegs : List RawSeg :=
  [.lit (gs "Artistic control of "),
   .marker (gs "var;name=\"x\";original=\"y\";match=\"(\\)\\>|\\))?\""),
   .lit (gs " the license.")]

/-- Modelled from the spec: a compiled template segment (spec 3) — a
literal run of normalized text, or a variable region carrying its
optional flag and the set of texts its match fragment accepts, abstracted
as a Boolean predicate. -/
inductive TemplateSegment
  | literal (text : GoStr)
  | var (isOptional : Bool) (canMatch : GoStr → Bool)

/-- What one segment may match (spec 4.2): a literal matches exactly its
text; a variable matches what its fragment accepts, and an optional
variable may also match nothing. -/
def segMatches : TemplateSegment → GoStr → Prop
  | .literal t, s => s = t
  | .var opt f, s => f s = true ∨ (opt = true ∧ s = [])

/-- Modelled from the spec: the compiled pattern matches a text when the
text splits, left to right, into pieces matched by the ordered segments
(spec 4.2 step 3). -/
inductive SegsMatch : List TemplateSegment → GoStr → Prop
  | nil : SegsMatch [] []
  | cons {seg : TemplateSegment} {segs : List TemplateSegment} {t u : GoStr} :
      segMatches seg t → SegsMatch segs u → SegsMatch (seg :: segs) (t ++ u)

/-- Whole-document matching (spec 4.2 step 3): the compiled pattern
matches a document when the segments match a body, with a tolerated run
of unmodelled leading and trailing text around it. -/
def PatternMatches (segs : List TemplateSegment) (doc : GoStr) : Prop :=
  ∃ pre body post, doc = pre ++ body ++ post ∧ SegsMatch segs body

/-- Modelled from the spec: the static-block accumulator (spec 4.3) —
consecutive literal text accumulates into one candidate block, and every
variable boundary closes the running block. -/
def blocksAux (acc : GoStr) : List TemplateSegment → List GoStr
  | [] => if acc = [] then [] else [acc]
  | .literal t :: rest => blocksAux (acc ++ t) rest
  | .var _ _ :: rest => (if acc = [] then [] else [acc]) ++ blocksAux [] rest

/-- Modelled from the spec: `extractStaticBlocks` (spec 4.3) — candidate
blocks in template order, those under the minimum length discarded. -/
def extractStaticBlocks (minLen : Nat) (segs : List TemplateSegment) : List GoStr :=
  (blocksAux [] segs).filter (fun b => decide (minLen ≤ b.length))

deriving instance DecidableEq for Except

/-- Observable actions of the import pipeline: a file written to the
destination (path components under the destination root, plus the bytes),
or a call to the Validator. -/
inductive Event
  | write (path : List GoStr) (bytes : GoStr)
  | validateCall (id : GoStr) (templateBytes : GoStr) (textBytes : GoStr)
      (templateFile : GoStr)
  deriving DecidableEq

/-- The trace of observable actions an import run performs, in order. -/
abbrev Trace := List Event

/-- The collaborators `importSPDX` (importer.go) calls out to:
`os.ReadFile` and `os.ReadDir`, the SPDX list parser
(`licenses.ReadSPDXLicenseListJSON`, reduced to the `LicenseListVersion`
it yields), the Validator, `resources.MkdirAllSPDX`, and the outcome of
each `resources.WriteSPDXFile` call. -/
structure ImportEnv where
  readFile : GoStr → Except GoStr GoStr
  readDir : GoStr → Except GoStr (List GoStr)
  parseListVersion : GoStr → Except GoStr GoStr
  validate : GoStr → GoStr → GoStr → GoStr → Except GoStr (List GoStr)
  mkdirAllSPDX : Except GoStr Unit
  writeFile : List GoStr → GoStr → Option GoStr

/-- `resources.WriteSPDXFile` as the importer uses it: one write event,
and the collaborator's outcome. -/
def writeSPDXFile (env : ImportEnv) (bytes : GoStr) (ff : List GoStr) :
    Except GoStr Unit × Trace :=
  (match env.writeFile ff bytes with
   | none => .ok ()
   | some e => .error e,
   [.write ff bytes])

/-- JSON string escaping for the serialized precheck artifact: quote and
backslash are escaped. -/
def jsonEscChar (c : Char) : GoStr := if c = '"' ∨ c = '\\' then ['\\', c] else [c]

/-- A JSON string literal for one static block. -/
def jsonStr (s : GoStr) : GoStr := '"' :: s.foldr (fun c acc => jsonEscChar c ++ acc) ['"']

/-- Comma-separated concatenation. -/
def commaSep : List GoStr → GoStr
  | [] => []
  | [x] => x
  | x :: xs => x ++ ',' :: commaSep xs

/-- Modelled from the spec: `getPreChecksBytes` (importer package, not
among the sources) serializes the ordered static-block list as a JSON
array of strings (spec 6); serializing a string list does not fail. -/
def getPreChecksBytes (staticBlocks : List GoStr) : Except GoStr GoStr :=
  .ok ('[' :: commaSep (staticBlocks.map jsonStr) ++ [']'])

/-- `writeSPDXFiles` (importer.go): persist the template bytes, the
reference-text bytes and the serialized precheck artifact for one
validated identifier. -/
def writeSPDXFiles (env : ImportEnv)
    (templateName templateBytes textName textBytes precheckName : GoStr)
    (staticBlocks : List GoStr) : Except GoStr Unit × Trace :=
  let w1 := writeSPDXFile env templateBytes [gs "template", templateName]
  match w1.1 with
  | .error e => (.error e, w1.2)
  | .ok _ =>
    let w2 := writeSPDXFile env textBytes [gs "testdata", textName]
    match w2.1 with
    | .error e => (.error e, w1.2 ++ w2.2)
    | .ok _ =>
      match getPreChecksBytes staticBlocks with
      | .error e => (.error e, w1.2 ++ w2.2)
      | .ok precheckBytes =>
        let w3 := writeSPDXFile env precheckBytes [gs "precheck", precheckName]
        (w3.1, w1.2 ++ w2.2 ++ w3.2)

/-- `writeInvalidSPDXFiles` (importer.go): stash the template and text
under testdata/invalid for manual examination; write errors are logged
and ignored. -/
def writeInvalidSPDXFiles (templateName templateBytes textName textBytes : GoStr) :
    Trace :=
  [.write [gs "testdata", gs "invalid", templateName] templateBytes,
   .write [gs "testdata", gs "invalid", textName] textBytes]

/-- The per-template loop of `importSPDX` (importer.go): validate each
template against its reference text; on failure of a `deprecated_`
identifier, retry once against the reference file named without the
marker; stash still-invalid pairs and count the failure; read errors and
fatal write errors abort the loop. Yields the final error count (or the
aborting error) and the trace. -/
def importLoop (env : ImportEnv) (templateSrcDir textSrcDir : GoStr) :
    List GoStr → Nat → Except GoStr Nat × Trace
  | [], errorCount => (.ok errorCount, [])
  | templateName :: rest, errorCount =>
    let id := trimSuffix templateName (gs ".template.txt")
    let templateFile := pathJoin templateSrcDir templateName
    let precheckName := id ++ gs ".json"
    let textName := id ++ gs ".txt"
    let textFile := pathJoin textSrcDir textName
    match env.readFile templateFile with
    | .error e => (.error e, [])
    | .ok templateBytes =>
      match env.readFile textFile with
      | .error e => (.error e, [])
      | .ok textBytes =>
        let ev1 : Trace := [.validateCall id templateBytes textBytes templateFile]
        match env.validate id templateBytes textBytes templateFile with
        | .ok staticBlocks =>
          let w := writeSPDXFiles env templateName templateBytes textName textBytes
            precheckName staticBlocks
          (match w.1 with
           | .error e => (.error e, ev1 ++ w.2)
           | .ok _ =>
             let k := importLoop env templateSrcDir textSrcDir rest errorCount
             (k.1, ev1 ++ w.2 ++ k.2))
        | .error _ =>
          if hasPfx id (gs "deprecated_") then
            let altTextFile := pathJoin textSrcDir (trimPfx (id ++ gs ".txt") (gs "deprecated_"))
            match env.readFile altTextFile with
            | .error e => (.error e, ev1)
            | .ok altTextBytes =>
              let ev2 : Trace := [.validateCall id templateBytes altTextBytes templateFile]
              match env.validate id templateBytes altTextBytes templateFile with
              | .ok staticBlocks =>
                let w := writeSPDXFiles env templateName templateBytes textName altTextBytes
                  precheckName staticBlocks
                (match w.1 with
                 | .error e => (.error e, ev1 ++ ev2 ++ w.2)
                 | .ok _ =>
                   let k := importLoop env templateSrcDir textSrcDir rest errorCount
                   (k.1, ev1 ++ ev2 ++ w.2 ++ k.2))
              | .error _ =>
                let wi := writeInvalidSPDXFiles templateName templateBytes textName altTextBytes
                let k := importLoop env templateSrcDir textSrcDir rest (errorCount + 1)
                (k.1, ev1 ++ ev2 ++ wi ++ k.2)
          else
            let wi := writeInvalidSPDXFiles templateName templateBytes textName textBytes
            let k := importLoop env templateSrcDir textSrcDir rest (errorCount + 1)
            (k.1, ev1 ++ wi ++ k.2)

/-- The add-all source directory of `importSPDX` (importer.go): relative
input directories hang off the repository root above the importer
package directory. -/
def resolveAddAllDir (cfg : Config) (thisDir : GoStr) : GoStr :=
  let addAllDir := cfg AddAllFlag
  if isAbs addAllDir then addAllDir
  else pathJoin (pathJoin thisDir (gs "..")) addAllDir

/-- `importSPDX` (importer.go): read and parse the two SPDX JSON lists,
require equal list versions, require a non-empty template source
directory, create the destination tree, copy the two JSON files, then
run the per-template loop; the whole batch fails at the end exactly when
the loop counted failures. -/
def importSPDX (env : ImportEnv) (cfg : Config) (thisDir : GoStr) :
    Except GoStr Unit × Trace :=
  let addAllDir := resolveAddAllDir cfg thisDir
  let licensesJSON := pathJoin addAllDir (pathJoin (gs "json") (gs "licenses.json"))
  let exceptionsJSON := pathJoin addAllDir (pathJoin (gs "json") (gs "exceptions.json"))
  let templateSrcDir := pathJoin addAllDir (gs "template")
  let textSrcDir := pathJoin addAllDir (gs "text")
  match env.readFile licensesJSON with
  | .error e => (.error (gs "read SPDXLicenseListJSON error: " ++ e), [])
  | .ok licenseListBytes =>
    match env.parseListVersion licenseListBytes with
    | .error e => (.error (gs "unmarshal SPDXLicenseListJSON error: " ++ e), [])
    | .ok licenseListVersion =>
      match env.readFile exceptionsJSON with
      | .error e => (.error (gs "read exceptions JSON error: " ++ e), [])
      | .ok exceptionsBytes =>
        match env.parseListVersion exceptionsBytes with
        | .error e => (.error (gs "unmarshal SPDXLicenseListJSON error: " ++ e), [])
        | .ok exceptionsListVersion =>
          if licenseListVersion ≠ exceptionsListVersion then
            (.error (gs "license list version '" ++ licenseListVersion ++
              gs "' does not match exception list version '" ++ exceptionsListVersion ++ gs "'"), [])
          else
            match env.readDir templateSrcDir with
            | .error e => (.error e, [])
            | .ok templateDEs =>
              if templateDEs.length < 1 then
                (.error (gs "template source dir is empty"), [])
              else
                match env.mkdirAllSPDX with
                | .error e => (.error e, [])
                | .ok _ =>
                  let wl := writeSPDXFile env licenseListBytes [gs "json", gs "licenses.json"]
                  match wl.1 with
                  | .error e => (.error e, wl.2)
                  | .ok _ =>
                    let we := writeSPDXFile env exceptionsBytes [gs "json", gs "exceptions.json"]
                    match we.1 with
                    | .error e => (.error e, wl.2 ++ we.2)
                    | .ok _ =>
                      let k := importLoop env templateSrcDir textSrcDir templateDEs 0
                      match k.1 with
                      | .error e => (.error e, wl.2 ++ we.2 ++ k.2)
                      | .ok errorCount =>
                        (if errorCount > 0 then
                          .error (gs "templates could not be validated")
                         else .ok (),
                         wl.2 ++ we.2 ++ k.2)

/-- `Import` (importer.go): nothing to import without the add-all flag;
otherwise exactly one non-default destination (SPDX or custom) must be
selected and the matching import runs. The outcomes of `importSPDX` and
`importCustom` enter as parameters. -/
def Import (cfg : Config) (spdxRun customRun : Except GoStr Unit × Trace) :
    Except GoStr Unit × Trace :=
  if cfg AddAllFlag = [] then (.ok (), [])
  else
    let doImportSPDX : Bool :=
      decide (cfg SpdxPathFlag ≠ []) || decide (cfg SpdxFlag ≠ DefaultResource)
    let doImportCustom : Bool :=
      decide (cfg CustomPathFlag ≠ []) || decide (cfg CustomFlag ≠ DefaultResource)
    if !doImportCustom && !doImportSPDX then
      (.error (gs "importing templates requires a non-default destination"), [])
    else if doImportCustom && doImportSPDX then
      (.error (gs "importing templates requires one non-default SPDX or custom destination -- found both"), [])
    else if doImportSPDX then spdxRun
    else customRun

/-- Whether the `importSPDX` loop counts one template as a failure: its
validation fails and, for a `deprecated_` identifier, the retry against
the unprefixed reference file fails too (read errors abort the loop
instead and count nothing). -/
def templateFails (env : ImportEnv) (templateSrcDir textSrcDir templateName : GoStr) :
    Bool :=
  let id := trimSuffix templateName (gs ".template.txt")
  let templateFile := pathJoin templateSrcDir templateName
  let textFile := pathJoin textSrcDir (id ++ gs ".txt")
  match env.readFile templateFile with
  | .error _ => false
  | .ok templateBytes =>
    match env.readFile textFile with
    | .error _ => false
    | .ok textBytes =>
      match env.validate id templateBytes textBytes templateFile with
      | .ok _ => false
      | .error _ =>
        if hasPfx id (gs "deprecated_") then
          match env.readFile (pathJoin textSrcDir (trimPfx (id ++ gs ".txt") (gs "deprecated_"))) with
          | .error _ => false
          | .ok altTextBytes =>
            match env.validate id templateBytes altTextBytes templateFile with
            | .ok _ => false
            | .error _ => true
        else true

/-- The reads needed to process one template succeed, so the loop body
cannot abort on that template. -/
def stepReadsOK (env : ImportEnv) (templateSrcDir textSrcDir templateName : GoStr) :
    Prop :=
  let id := trimSuffix templateName (gs ".template.txt")
  (∃ tb, env.readFile (pathJoin templateSrcDir templateName) = .ok tb)
  ∧ (∃ xb, env.readFile (pathJoin textSrcDir (id ++ gs ".txt")) = .ok xb)
  ∧ (hasPfx id (gs "deprecated_") = true →
      ∃ ab, env.readFile (pathJoin textSrcDir (trimPfx (id ++ gs ".txt") (gs "deprecated_"))) = .ok ab)

theorem pathJoin_ne (a b : GoStr) (ha : a ≠ []) (hb : b ≠ []) :
    pathJoin a b = a ++ gs "/" ++ b := by
  simp [pathJoin, ha, hb]

theorem except_map_ok {e a b : Type} {f : a → b} {x : Except e a} {y : b}
    (h : Except.map f x = .ok y) : ∃ z, x = .ok z ∧ f z = y := by
  cases x with
  | error e => simp [Except.map] at h
  | ok z => exact ⟨z, rfl, by simpa [Except.map] using h⟩

theorem reconstruct_consToLit (c : Char) (segs : List RawSeg) :
    reconstruct (consToLit c segs) = c :: reconstruct segs := by
  match segs with
  | [] => rfl
  | .lit t :: rest => rfl
  | .marker b :: rest => rfl

theorem scan1_inv (st : ScanState) (s : GoStr) :
    ∀ segs, scan1 st s = .ok segs → scanInv st segs s := by
  induction st, s using scan1.induct with
  | case1 =>
    intro segs h
    simp only [scan1] at h
    cases h
    rfl
  | case2 rest ih =>
    intro segs h
    simp only [scan1] at h
    obtain ⟨b, r, hsegs, hrec⟩ := ih segs h
    subst hsegs
    show gs "<<" ++ b ++ gs ">>" ++ reconstruct r = '<' :: '<' :: rest
    have h2 : gs "<<" = ['<', '<'] := rfl
    rw [h2]
    simp only [List.cons_append, List.nil_append]
    rw [hrec]
  | case3 c rest hside ih =>
    intro segs h
    simp only [scan1] at h
    obtain ⟨segs2, h2, rfl⟩ := except_map_ok h
    show reconstruct (consToLit c segs2) = c :: rest
    rw [reconstruct_consToLit]
    have hr := ih segs2 h2
    simp only [scanInv] at hr
    rw [hr]
  | case4 =>
    intro segs h
    simp only [scan1] at h
    exact Except.noConfusion h
  | case5 rest ih =>
    intro segs h
    simp only [scan1] at h
    obtain ⟨segs2, h2, rfl⟩ := except_map_ok h
    have hr := ih segs2 h2
    simp only [scanInv] at hr ⊢
    obtain ⟨b, r, rfl, hrec⟩ := hr
    refine ⟨'\\' :: b, r, rfl, ?_⟩
    simp only [List.cons_append]
    rw [hrec]
  | case6 rest ih =>
    intro segs h
    simp only [scan1] at h
    obtain ⟨segs2, h2, rfl⟩ := except_map_ok h
    have hr := ih segs2 h2
    simp only [scanInv] at hr ⊢
    refine ⟨[], segs2, rfl, ?_⟩
    have hgt : gs ">>" = ['>', '>'] := rfl
    rw [List.nil_append, hgt]
    simp only [List.cons_append, List.nil_append]
    rw [hr]
  | case7 c rest hs1 hs2 ih =>
    intro segs h
    simp only [scan1] at h
    obtain ⟨segs2, h2, rfl⟩ := except_map_ok h
    have hr := ih segs2 h2
    simp only [scanInv] at hr ⊢
    obtain ⟨b, r, rfl, hrec⟩ := hr
    refine ⟨c :: b, r, rfl, ?_⟩
    simp only [List.cons_append]
    rw [hrec]
  | case8 =>
    intro segs h
    simp only [scan1] at h
    exact Except.noConfusion h
  | case9 c rest ih =>
    intro segs h
    simp only [scan1] at h
    obtain ⟨segs2, h2, rfl⟩ := except_map_ok h
    have hr := ih segs2 h2
    simp only [scanInv] at hr ⊢
    obtain ⟨b, r, rfl, hrec⟩ := hr
    refine ⟨c :: b, r, rfl, ?_⟩
    simp only [List.cons_append]
    rw [hrec]

/-- C2: scanning a template with the escape-aware state machine never
silently truncates — every successful scan reassembles to the entire
input — and on the D-FSL-1.0 fragment, whose `match` attribute holds an
escaped closing delimiter inside an alternation, the scan succeeds with
the whole attribute intact (the only other possible outcome of
`scanTemplate` is a diagnosable `CompileError`). -/
theorem escaped_delimiter_never_truncates :
    (∀ (s : GoStr) (segs : List RawSeg),
      scanTemplate s = .ok segs → reconstruct segs = s)
    ∧ scanTemplate dfslTemplate = .ok dfslSegs :=
  ⟨fun s segs h => scan1_inv .inLiteral s segs h, by decide⟩

/-- Witness for C2: the reassembled D-FSL scan result is the whole
template. -/
theorem escaped_delimiter_never_truncates_witness :
    reconstruct dfslSegs = dfslTemplate ∧ scanTemplate dfslTemplate = .ok dfslSegs :=
  ⟨escaped_delimiter_never_truncates.1 dfslTemplate dfslSegs
    escaped_delimiter_never_truncates.2,
   escaped_delimiter_never_truncates.2⟩

/-- C7: `getFileReader` — and so `getSPDXReader` and `getCustomReader` —
selects the embedded-bundle reader exactly when the corresponding path
flag is the empty string and the filesystem reader otherwise, and the
selected reader/path pair depends only on the two configuration
values. -/
theorem getFileReader_embedded_iff_empty_path :
    (∀ (cfg : Config) (pf ef : GoStr),
      (getFileReader cfg pf ef).1 = SelectedReader.embedded ↔ cfg pf = [])
    ∧ (∀ cfg : Config,
      (getSPDXReader cfg).1 = SelectedReader.embedded ↔ cfg SpdxPathFlag = [])
    ∧ (∀ cfg : Config,
      (getCustomReader cfg).1 = SelectedReader.embedded ↔ cfg CustomPathFlag = [])
    ∧ (∀ (cfg cfg2 : Config) (pf ef : GoStr),
      cfg pf = cfg2 pf → cfg ef = cfg2 ef →
      getFileReader cfg pf ef = getFileReader cfg2 pf ef) := by
  refine ⟨?_, ?_, ?_, ?_⟩
  · intro cfg pf ef
    by_cases h : cfg pf = [] <;> simp [getFileReader, h]
  · intro cfg
    by_cases h : cfg SpdxPathFlag = [] <;> simp [getSPDXReader, getFileReader, h]
  · intro cfg
    by_cases h : cfg CustomPathFlag = [] <;> simp [getCustomReader, getFileReader, h]
  · intro cfg cfg2 pf ef h1 h2
    simp only [getFileReader, h1, h2]

/-- Witness for C7 at concrete configurations. -/
theorem getFileReader_embedded_iff_empty_path_witness :
    (getFileReader (fun _ => []) SpdxPathFlag SpdxFlag).1 = SelectedReader.embedded
    ∧ getFileReader (fun _ => gs "p") SpdxPathFlag SpdxFlag
        = getFileReader (fun f => if f = [] then gs "q" else gs "p") SpdxPathFlag SpdxFlag :=
  ⟨(getFileReader_embedded_iff_empty_path.1 _ _ _).2 rfl,
   getFileReader_embedded_iff_empty_path.2.2.2 _ _ _ _ (by decide) (by decide)⟩

theorem append_ne_nil_left (a b : GoStr) (ha : a ≠ []) : a ++ b ≠ [] := by
  intro h
  exact ha (List.append_eq_nil.mp h).1

theorem append_ne_nil_right (a b : GoStr) (hb : b ≠ []) : a ++ b ≠ [] := by
  intro h
  exact hb (List.append_eq_nil.mp h).2

/-- C10: for every identifier and base path, the SPDX template and
precheck readers read exactly `<spdxPath>/template/deprecated_<id>.template.txt`
and `<spdxPath>/precheck/deprecated_<id>.json` when the deprecated flag is
set, and the same paths without the `deprecated_` marker otherwise — the
two file namings agree on the marker for every (id, isDeprecated) pair. -/
theorem spdx_read_paths_agree (r : Resources) (id : GoStr) (hp : r.spdxPath ≠ []) :
    ((r.ReadSPDXTemplateFile id true).2
        = r.spdxPath ++ gs "/template/deprecated_" ++ id ++ gs ".template.txt"
     ∧ (r.ReadSPDXTemplateFile id true).1
        = r.spdxReader.readFile
            (r.spdxPath ++ gs "/template/deprecated_" ++ id ++ gs ".template.txt")
     ∧ r.ReadSPDXPreCheckFile id true
        = r.spdxReader.readFile
            (r.spdxPath ++ gs "/precheck/deprecated_" ++ id ++ gs ".json"))
    ∧ ((r.ReadSPDXTemplateFile id false).2
        = r.spdxPath ++ gs "/template/" ++ id ++ gs ".template.txt"
     ∧ (r.ReadSPDXTemplateFile id false).1
        = r.spdxReader.readFile
            (r.spdxPath ++ gs "/template/" ++ id ++ gs ".template.txt")
     ∧ r.ReadSPDXPreCheckFile id false
        = r.spdxReader.readFile
            (r.spdxPath ++ gs "/precheck/" ++ id ++ gs ".json")) := by
  have htdir : pathJoin r.spdxPath (gs "template") = r.spdxPath ++ (gs "/" ++ gs "template") := by
    simpa [List.append_assoc] using pathJoin_ne r.spdxPath (gs "template") hp (by decide)
  have hpdir : pathJoin r.spdxPath (gs "precheck") = r.spdxPath ++ (gs "/" ++ gs "precheck") := by
    simpa [List.append_assoc] using pathJoin_ne r.spdxPath (gs "precheck") hp (by decide)
  have htdirne : pathJoin r.spdxPath (gs "template") ≠ [] := by
    rw [htdir]
    exact append_ne_nil_left _ _ hp
  have hpdirne : pathJoin r.spdxPath (gs "precheck") ≠ [] := by
    rw [hpdir]
    exact append_ne_nil_left _ _ hp
  have h1 : getSPDXTemplateFilePath id true (pathJoin r.spdxPath (gs "template"))
      = r.spdxPath ++ gs "/template/deprecated_" ++ id ++ gs ".template.txt" := by
    show pathJoin (pathJoin r.spdxPath (gs "template")) (gs "deprecated_" ++ (id ++ gs ".template.txt"))
        = r.spdxPath ++ gs "/template/deprecated_" ++ id ++ gs ".template.txt"
    rw [pathJoin_ne _ _ htdirne (append_ne_nil_left _ _ (by decide))]
    rw [htdir]
    simp only [List.append_assoc]
    congr 1
  have h2 : getSPDXPreCheckFilePath id true (pathJoin r.spdxPath (gs "precheck"))
      = r.spdxPath ++ gs "/precheck/deprecated_" ++ id ++ gs ".json" := by
    show pathJoin (pathJoin r.spdxPath (gs "precheck")) (gs "deprecated_" ++ (id ++ gs ".json"))
        = r.spdxPath ++ gs "/precheck/deprecated_" ++ id ++ gs ".json"
    rw [pathJoin_ne _ _ hpdirne (append_ne_nil_left _ _ (by decide))]
    rw [hpdir]
    simp only [List.append_assoc]
    congr 1
  have h3 : getSPDXTemplateFilePath id false (pathJoin r.spdxPath (gs "template"))
      = r.spdxPath ++ gs "/template/" ++ id ++ gs ".template.txt" := by
    show pathJoin (pathJoin r.spdxPath (gs "template")) (id ++ gs ".template.txt")
        = r.spdxPath ++ gs "/template/" ++ id ++ gs ".template.txt"
    rw [pathJoin_ne _ _ htdirne (append_ne_nil_right _ _ (by decide))]
    rw [htdir]
    simp only [List.append_assoc]
    congr 1
  have h4 : getSPDXPreCheckFilePath id false (pathJoin r.spdxPath (gs "precheck"))
      = r.spdxPath ++ gs "/precheck/" ++ id ++ gs ".json" := by
    show pathJoin (pathJoin r.spdxPath (gs "precheck")) (id ++ gs ".json")
        = r.spdxPath ++ gs "/precheck/" ++ id ++ gs ".json"
    rw [pathJoin_ne _ _ hpdirne (append_ne_nil_right _ _ (by decide))]
    rw [hpdir]
    simp only [List.append_assoc]
    congr 1
  refine ⟨⟨h1, ?_, ?_⟩, ⟨h3, ?_, ?_⟩⟩
  · show r.spdxReader.readFile (getSPDXTemplateFilePath id true (pathJoin r.spdxPath (gs "template"))) = _
    rw [h1]
  · show r.spdxReader.readFile (getSPDXPreCheckFilePath id true (pathJoin r.spdxPath (gs "precheck"))) = _
    rw [h2]
  · show r.spdxReader.readFile (getSPDXTemplateFilePath id false (pathJoin r.spdxPath (gs "template"))) = _
    rw [h3]
  · show r.spdxReader.readFile (getSPDXPreCheckFilePath id false (pathJoin r.spdxPath (gs "precheck"))) = _
    rw [h4]

/-- Witness for C10 at a concrete `Resources` value. -/
theorem spdx_read_paths_agree_witness :
    ((Resources.mk (fun _ => gs "/base") ⟨fun _ => .ok [], fun f => .ok f⟩ (gs "/base")
        ⟨fun _ => .ok [], fun f => .ok f⟩ (gs "/base")).ReadSPDXTemplateFile (gs "MIT") true).2
      = gs "/base" ++ gs "/template/deprecated_" ++ gs "MIT" ++ gs ".template.txt" :=
  ((spdx_read_paths_agree _ (gs "MIT") (by decide)).1).1

theorem mkdirAllLoop_ne_none_of_nonempty (fs : FSEnv) (destPath : GoStr)
    (dirs : List GoStr) (d : GoStr) (des : List GoStr) (hd : d ∈ dirs)
    (hread : fs.readDirAfter (pathJoin destPath d) = .ok des) (hne : des ≠ []) :
    mkdirAllLoop fs destPath dirs ≠ none := by
  induction dirs with
  | nil => simp at hd
  | cons dir rest ih =>
    rcases List.mem_cons.mp hd with h | h
    · subst h
      cases hmk : fs.mkdir (pathJoin destPath d) with
      | some e => simp [mkdirAllLoop, hmk]
      | none =>
        have hlen : 0 < des.length := List.length_pos.mpr hne
        simp [mkdirAllLoop, hmk, hread, hlen]
    · cases hmk : fs.mkdir (pathJoin destPath dir) with
      | some e => simp [mkdirAllLoop, hmk]
      | none =>
        cases hrd : fs.readDirAfter (pathJoin destPath dir) with
        | error e => simp [mkdirAllLoop, hmk, hrd]
        | ok des2 =>
          by_cases hlen : des2.length > 0
          · simp [mkdirAllLoop, hmk, hrd, hlen]
          · simpa [mkdirAllLoop, hmk, hrd, hlen] using ih h

/-- C5: `mkdirAll` — and therefore `MkdirAllSPDX` and `MkdirAllCustom` —
returns an error whenever a destination subdirectory is non-empty after
creation, so an import can never write catalog files into a previously
populated destination directory. -/
theorem mkdirAll_rejects_nonempty_destination :
    (∀ (fs : FSEnv) (cfg : Config) (pathFlag embeddedFlag thisDir : GoStr)
      (dirs : List GoStr) (d : GoStr) (des : List GoStr), d ∈ dirs →
      fs.readDirAfter
        (pathJoin (getResourcesWritePath cfg pathFlag embeddedFlag thisDir) d) = .ok des →
      des ≠ [] → mkdirAll fs cfg pathFlag embeddedFlag thisDir dirs ≠ none)
    ∧ (∀ (fs : FSEnv) (cfg : Config) (thisDir d : GoStr) (des : List GoStr),
      d ∈ [gs "template", gs "precheck", gs "json", gs "testdata", gs "testdata/invalid"] →
      fs.readDirAfter
        (pathJoin (getResourcesWritePath cfg SpdxPathFlag SpdxFlag thisDir) d) = .ok des →
      des ≠ [] → MkdirAllSPDX fs cfg thisDir ≠ none)
    ∧ (∀ (fs : FSEnv) (cfg : Config) (thisDir id : GoStr) (des : List GoStr),
      fs.readDirAfter
        (pathJoin (getResourcesWritePath cfg CustomPathFlag CustomFlag thisDir)
          (gs "license_patterns/" ++ id)) = .ok des →
      des ≠ [] → MkdirAllCustom fs cfg thisDir id ≠ none) := by
  refine ⟨?_, ?_, ?_⟩
  · intro fs cfg pathFlag embeddedFlag thisDir dirs d des hd hread hne
    exact mkdirAllLoop_ne_none_of_nonempty fs _ dirs d des hd hread hne
  · intro fs cfg thisDir d des hd hread hne
    exact mkdirAllLoop_ne_none_of_nonempty fs _ _ d des hd hread hne
  · intro fs cfg thisDir id des hread hne
    exact mkdirAllLoop_ne_none_of_nonempty fs _ _ _ des (List.mem_singleton.mpr rfl) hread hne

/-- Witness for C5: a destination whose template directory already holds
an entry makes `MkdirAllSPDX` fail. -/
theorem mkdirAll_rejects_nonempty_destination_witness :
    MkdirAllSPDX ⟨fun _ => none, fun _ => .ok [gs "old"]⟩ (fun _ => gs "/dest") (gs "T") ≠ none :=
  mkdirAll_rejects_nonempty_destination.2.1 ⟨fun _ => none, fun _ => .ok [gs "old"]⟩
    (fun _ => gs "/dest") (gs "T") (gs "template") [gs "old"] (by decide) rfl (by decide)

/-- C8: `Import` does nothing when the add-all flag is empty; with it set,
it errors when neither or both of the SPDX and custom destinations are
non-default, and runs exactly the selected import when exactly one is. -/
theorem Import_runs_exactly_one_destination
    (cfg : Config) (spdxRun customRun : Except GoStr Unit × Trace) :
    (cfg AddAllFlag = [] → Import cfg spdxRun customRun = (.ok (), []))
    ∧ (cfg AddAllFlag ≠ [] →
        cfg SpdxPathFlag = [] → cfg SpdxFlag = DefaultResource →
        cfg CustomPathFlag = [] → cfg CustomFlag = DefaultResource →
        ∃ e, Import cfg spdxRun customRun = (.error e, []))
    ∧ (cfg AddAllFlag ≠ [] →
        (cfg SpdxPathFlag ≠ [] ∨ cfg SpdxFlag ≠ DefaultResource) →
        (cfg CustomPathFlag ≠ [] ∨ cfg CustomFlag ≠ DefaultResource) →
        ∃ e, Import cfg spdxRun customRun = (.error e, []))
    ∧ (cfg AddAllFlag ≠ [] →
        (cfg SpdxPathFlag ≠ [] ∨ cfg SpdxFlag ≠ DefaultResource) →
        cfg CustomPathFlag = [] → cfg CustomFlag = DefaultResource →
        Import cfg spdxRun customRun = spdxRun)
    ∧ (cfg AddAllFlag ≠ [] →
        cfg SpdxPathFlag = [] → cfg SpdxFlag = DefaultResource →
        (cfg CustomPathFlag ≠ [] ∨ cfg CustomFlag ≠ DefaultResource) →
        Import cfg spdxRun customRun = customRun) := by
  refine ⟨?_, ?_, ?_, ?_, ?_⟩
  · intro h
    simp [Import, h]
  · intro ha h1 h2 h3 h4
    refine ⟨gs "importing templates requires a non-default destination", ?_⟩
    simp [Import, ha, h1, h2, h3, h4]
  · intro ha hs hc
    refine ⟨gs "importing templates requires one non-default SPDX or custom destination -- found both", ?_⟩
    rcases hs with hs | hs <;> rcases hc with hc | hc <;>
      simp [Import, ha, hs, hc]
  · intro ha hs h3 h4
    rcases hs with hs | hs <;> simp [Import, ha, hs, h3, h4]
  · intro ha h1 h2 hc
    rcases hc with hc | hc <;> simp [Import, ha, h1, h2, hc]

/-- Witness for C8: with only the SPDX destination non-default, `Import`
is exactly the SPDX run. -/
theorem Import_runs_exactly_one_destination_witness :
    Import (fun f => if f = CustomPathFlag then [] else if f = CustomFlag then DefaultResource else gs "x")
        (.ok (), [.write [gs "p"] (gs "b")]) (.error (gs "no"), [])
      = (.ok (), [.write [gs "p"] (gs "b")]) :=
  (Import_runs_exactly_one_destination _ _ _).2.2.2.1 (by decide) (.inl (by decide))
    (by decide) (by decide)

/-- C9: when the two SPDX JSON lists parse to different
`LicenseListVersion`s, `importSPDX` fails and its trace is empty — the
version check precedes every destination write. -/
theorem importSPDX_version_mismatch_writes_nothing
    (env : ImportEnv) (cfg : Config) (thisDir lb v1 eb v2 : GoStr)
    (h1 : env.readFile (pathJoin (resolveAddAllDir cfg thisDir)
        (pathJoin (gs "json") (gs "licenses.json"))) = .ok lb)
    (h2 : env.parseListVersion lb = .ok v1)
    (h3 : env.readFile (pathJoin (resolveAddAllDir cfg thisDir)
        (pathJoin (gs "json") (gs "exceptions.json"))) = .ok eb)
    (h4 : env.parseListVersion eb = .ok v2)
    (hne : v1 ≠ v2) :
    ∃ e, importSPDX env cfg thisDir = (.error e, []) := by
  refine ⟨gs "license list version '" ++ v1 ++ gs "' does not match exception list version '" ++ v2 ++ gs "'", ?_⟩
  simp only [importSPDX, h1, h2, h3, h4]
  rw [if_pos hne]

/-- Witness for C9 at a concrete environment whose two parsed versions
are the two distinct source paths. -/
theorem importSPDX_version_mismatch_writes_nothing_witness :
    ∃ e, importSPDX
      ⟨fun f => .ok f, fun _ => .ok [], fun b => .ok b,
       fun _ _ _ _ => .ok [], .ok (), fun _ _ => none⟩
      (fun _ => gs "a") (gs "r") = (.error e, []) :=
  importSPDX_version_mismatch_writes_nothing _ _ _
    (gs "r/../a/json/licenses.json") (gs "r/../a/json/licenses.json")
    (gs "r/../a/json/exceptions.json") (gs "r/../a/json/exceptions.json")
    (by decide) (by decide) (by decide) (by decide) (by decide)

theorem writeSPDXFiles_of_writeOK (env : ImportEnv)
    (templateName templateBytes textName textBytes precheckName : GoStr)
    (staticBlocks : List GoStr)
    (hw : ∀ ff b, env.writeFile ff b = none) :
    writeSPDXFiles env templateName templateBytes textName textBytes precheckName staticBlocks =
      (.ok (), [.write [gs "template", templateName] templateBytes,
                .write [gs "testdata", textName] textBytes,
                .write [gs "precheck", precheckName]
                  ('[' :: commaSep (staticBlocks.map jsonStr) ++ [']'])]) := by
  simp [writeSPDXFiles, writeSPDXFile, getPreChecksBytes, hw]

/-- C6: when the destination accepts the writes, `writeSPDXFiles` persists
the original template bytes and reference-text bytes unchanged —
byte-for-byte the input slices — to the template and testdata
destinations, alongside the precheck artifact serialized from the ordered
static-block list. -/
theorem writeSPDXFiles_stores_inputs_verbatim (env : ImportEnv)
    (templateName templateBytes textName textBytes precheckName : GoStr)
    (staticBlocks : List GoStr)
    (hw : ∀ ff b, env.writeFile ff b = none) :
    writeSPDXFiles env templateName templateBytes textName textBytes precheckName staticBlocks =
      (.ok (), [.write [gs "template", templateName] templateBytes,
                .write [gs "testdata", textName] textBytes,
                .write [gs "precheck", precheckName]
                  ('[' :: commaSep (staticBlocks.map jsonStr) ++ [']'])]) :=
  writeSPDXFiles_of_writeOK env templateName templateBytes textName textBytes
    precheckName staticBlocks hw

/-- Witness for C6 at concrete bytes and blocks. -/
theorem writeSPDXFiles_stores_inputs_verbatim_witness :
    writeSPDXFiles ⟨fun _ => .error [], fun _ => .error [], fun _ => .error [],
        fun _ _ _ _ => .error [], .error [], fun _ _ => none⟩
      (gs "A.template.txt") (gs "TPL") (gs "A.txt") (gs "TXT") (gs "A.json")
      [gs "alpha", gs "beta"] =
      (.ok (), [.write [gs "template", gs "A.template.txt"] (gs "TPL"),
                .write [gs "testdata", gs "A.txt"] (gs "TXT"),
                .write [gs "precheck", gs "A.json"] (gs "[\"alpha\",\"beta\"]")]) := by
  have h := writeSPDXFiles_stores_inputs_verbatim
    ⟨fun _ => .error [], fun _ => .error [], fun _ => .error [],
     fun _ _ _ _ => .error [], .error [], fun _ _ => none⟩
    (gs "A.template.txt") (gs "TPL") (gs "A.txt") (gs "TXT") (gs "A.json")
    [gs "alpha", gs "beta"] (fun _ _ => rfl)
  rw [h]
  decide

theorem blocksAux_infix {segs : List TemplateSegment} {body : GoStr}
    (h : SegsMatch segs body) :
    ∀ (acc b : GoStr), b ∈ blocksAux acc segs → b <:+: acc ++ body := by
  induction h with
  | nil =>
    intro acc b hb
    by_cases hacc : acc = []
    · simp [blocksAux, hacc] at hb
    · simp only [blocksAux, if_neg hacc, List.mem_singleton] at hb
      subst hb
      exact ⟨[], [], by simp⟩
  | cons hseg hrest ih =>
    rename_i seg segs2 t u
    intro acc b hb
    cases seg with
    | literal lt =>
      have ht : t = lt := hseg
      subst ht
      simp only [blocksAux] at hb
      have hres := ih (acc ++ t) b hb
      simpa [List.append_assoc] using hres
    | var opt f =>
      simp only [blocksAux] at hb
      rcases List.mem_append.mp hb with h1 | h1
      · by_cases hacc : acc = []
        · simp [hacc] at h1
        · simp only [if_neg hacc, List.mem_singleton] at h1
          subst h1
          exact ⟨[], t ++ u, by simp⟩
      · have hres := ih [] b h1
        simp only [List.nil_append] at hres
        exact hres.trans ⟨acc ++ t, [], by simp [List.append_assoc]⟩

/-- C4: precheck soundness — whenever the compiled pattern of a catalog
entry matches a (normalized) document, every static block of the entry is
a substring of that document, so the static-block precheck never rejects
a document the compiled pattern would match. -/
theorem precheck_soundness (minLen : Nat) (segs : List TemplateSegment) (doc : GoStr)
    (h : PatternMatches segs doc) :
    ∀ b ∈ extractStaticBlocks minLen segs, b <:+: doc := by
  obtain ⟨pre, body, post, hdoc, hm⟩ := h
  intro b hb
  have hmem : b ∈ blocksAux [] segs := List.mem_of_mem_filter hb
  have h1 : b <:+: body := by simpa using blocksAux_infix hm [] b hmem
  subst hdoc
  exact h1.trans ⟨pre, post, rfl⟩

/-- Witness for C4 at a concrete template and document: the pattern
matches, and the first static block is indeed a substring. -/
theorem precheck_soundness_witness :
    PatternMatches
      [.literal (gs "permission to use "), .var false (fun _ => true),
       .literal (gs " is granted.")]
      (gs "x permission to use Jane is granted. y")
    ∧ gs "permission to use " <:+: gs "x permission to use Jane is granted. y" := by
  have hm : SegsMatch
      [.literal (gs "permission to use "), .var false (fun _ => true),
       .literal (gs " is granted.")]
      (gs "permission to use " ++ (gs "Jane" ++ (gs " is granted." ++ []))) :=
    .cons rfl (.cons (Or.inl rfl) (.cons rfl .nil))
  have hp : PatternMatches
      [.literal (gs "permission to use "), .var false (fun _ => true),
       .literal (gs " is granted.")]
      (gs "x permission to use Jane is granted. y") :=
    ⟨gs "x ", gs "permission to use " ++ (gs "Jane" ++ (gs " is granted." ++ [])),
     gs " y", by decide, hm⟩
  exact ⟨hp, precheck_soundness 3 _ _ hp (gs "permission to use ") (by decide)⟩

/-- C3: for a template whose identifier carries the `deprecated_` marker
and whose first validation against its own reference text fails (the
Validator reports that failure to the loop — hypothesis `hv1` — rather
than suppressing it), the `importSPDX` loop retries validation exactly
once, against the reference file named with the marker removed: the step
performs exactly those two validate calls; on a successful retry it
proceeds uncounted, persisting the retried bytes; and it counts the
identifier as a failure and stashes its files under testdata/invalid
exactly when the retry fails too. -/
theorem importLoop_deprecated_retries_once
    (env : ImportEnv) (templateSrcDir textSrcDir templateName : GoStr)
    (rest : List GoStr) (c : Nat) (id tf tb xb ab e1 : GoStr)
    (hid : id = trimSuffix templateName (gs ".template.txt"))
    (htf : tf = pathJoin templateSrcDir templateName)
    (hw : ∀ ff b, env.writeFile ff b = none)
    (hr1 : env.readFile tf = .ok tb)
    (hr2 : env.readFile (pathJoin textSrcDir (id ++ gs ".txt")) = .ok xb)
    (hdep : hasPfx id (gs "deprecated_") = true)
    (hv1 : env.validate id tb xb tf = .error e1)
    (hr3 : env.readFile
        (pathJoin textSrcDir (trimPfx (id ++ gs ".txt") (gs "deprecated_"))) = .ok ab) :
    (∀ sb, env.validate id tb ab tf = .ok sb →
      importLoop env templateSrcDir textSrcDir (templateName :: rest) c =
        ((importLoop env templateSrcDir textSrcDir rest c).1,
         .validateCall id tb xb tf :: .validateCall id tb ab tf ::
           .write [gs "template", templateName] tb ::
           .write [gs "testdata", id ++ gs ".txt"] ab ::
           .write [gs "precheck", id ++ gs ".json"]
             ('[' :: commaSep (sb.map jsonStr) ++ [']']) ::
           (importLoop env templateSrcDir textSrcDir rest c).2))
    ∧ (∀ e2, env.validate id tb ab tf = .error e2 →
      importLoop env templateSrcDir textSrcDir (templateName :: rest) c =
        ((importLoop env templateSrcDir textSrcDir rest (c + 1)).1,
         .validateCall id tb xb tf :: .validateCall id tb ab tf ::
           .write [gs "testdata", gs "invalid", templateName] tb ::
           .write [gs "testdata", gs "invalid", id ++ gs ".txt"] ab ::
           (importLoop env templateSrcDir textSrcDir rest (c + 1)).2)) := by
  subst hid htf
  constructor
  · intro sb hv2
    simp [importLoop, writeSPDXFiles, writeSPDXFile, getPreChecksBytes,
      writeInvalidSPDXFiles, hr1, hr2, hv1, hdep, hr3, hv2, hw]
  · intro e2 hv2
    simp [importLoop, writeSPDXFiles, writeSPDXFile, getPreChecksBytes,
      writeInvalidSPDXFiles, hr1, hr2, hv1, hdep, hr3, hv2, hw]

/-- Witness for C3 at a concrete environment whose retry also fails: the
alternate reference bytes are read, validated once, and stashed. -/
theorem importLoop_deprecated_retries_once_witness :
    importLoop
      ⟨fun f => if f = gs "T/deprecated_A.template.txt" then .ok (gs "TPL")
        else if f = gs "X/deprecated_A.txt" then .ok (gs "PRI") else .ok (gs "ALT"),
       fun _ => .ok [], fun _ => .ok [],
       fun _ _ xb _ => if xb = gs "ALT" then .error (gs "still bad") else .error (gs "bad"),
       .ok (), fun _ _ => none⟩
      (gs "T") (gs "X") [gs "deprecated_A.template.txt"] 0 =
    ((importLoop
      ⟨fun f => if f = gs "T/deprecated_A.template.txt" then .ok (gs "TPL")
        else if f = gs "X/deprecated_A.txt" then .ok (gs "PRI") else .ok (gs "ALT"),
       fun _ => .ok [], fun _ => .ok [],
       fun _ _ xb _ => if xb = gs "ALT" then .error (gs "still bad") else .error (gs "bad"),
       .ok (), fun _ _ => none⟩
      (gs "T") (gs "X") [] 1).1,
     .validateCall (gs "deprecated_A") (gs "TPL") (gs "PRI") (gs "T/deprecated_A.template.txt") ::
     .validateCall (gs "deprecated_A") (gs "TPL") (gs "ALT") (gs "T/deprecated_A.template.txt") ::
     .write [gs "testdata", gs "invalid", gs "deprecated_A.template.txt"] (gs "TPL") ::
     .write [gs "testdata", gs "invalid", gs "deprecated_A.txt"] (gs "ALT") ::
     (importLoop
      ⟨fun f => if f = gs "T/deprecated_A.template.txt" then .ok (gs "TPL")
        else if f = gs "X/deprecated_A.txt" then .ok (gs "PRI") else .ok (gs "ALT"),
       fun _ => .ok [], fun _ => .ok [],
       fun _ _ xb _ => if xb = gs "ALT" then .error (gs "still bad") else .error (gs "bad"),
       .ok (), fun _ _ => none⟩
      (gs "T") (gs "X") [] 1).2) :=
  (importLoop_deprecated_retries_once
    ⟨fun f => if f = gs "T/deprecated_A.template.txt" then .ok (gs "TPL")
      else if f = gs "X/deprecated_A.txt" then .ok (gs "PRI") else .ok (gs "ALT"),
     fun _ => .ok [], fun _ => .ok [],
     fun _ _ xb _ => if xb = gs "ALT" then .error (gs "still bad") else .error (gs "bad"),
     .ok (), fun _ _ => none⟩
    (gs "T") (gs "X") (gs "deprecated_A.template.txt") [] 0
    (gs "deprecated_A") (gs "T/deprecated_A.template.txt")
    (gs "TPL") (gs "PRI") (gs "ALT") (gs "bad")
    (by decide) (by decide) (fun _ _ => rfl) (by decide) (by decide)
    (by decide) (by decide) (by decide)).2 (gs "still bad") (by decide)

theorem importLoop_counts (env : ImportEnv) (templateSrcDir textSrcDir : GoStr)
    (hw : ∀ ff b, env.writeFile ff b = none) :
    ∀ (names : List GoStr) (c : Nat),
      (∀ n ∈ names, stepReadsOK env templateSrcDir textSrcDir n) →
      (importLoop env templateSrcDir textSrcDir names c).1 =
        .ok (c + List.countP
          (fun n => templateFails env templateSrcDir textSrcDir n) names) := by
  intro names
  induction names with
  | nil =>
    intro c h
    simp [importLoop]
  | cons n rest ih =>
    intro c hall
    obtain ⟨⟨tb, htb⟩, ⟨xb, hxb⟩, halt⟩ := hall n (List.mem_cons_self n rest)
    have hrest := fun m hm => hall m (List.mem_cons_of_mem n hm)
    cases hv : env.validate (trimSuffix n (gs ".template.txt")) tb xb
        (pathJoin templateSrcDir n) with
    | ok sb =>
      have hfail : templateFails env templateSrcDir textSrcDir n = false := by
        simp [templateFails, htb, hxb, hv]
      simp [importLoop, writeSPDXFiles, writeSPDXFile, getPreChecksBytes,
        htb, hxb, hv, hw, List.countP_cons, hfail, ih c hrest]
    | error e1 =>
      by_cases hdep : hasPfx (trimSuffix n (gs ".template.txt")) (gs "deprecated_") = true
      · obtain ⟨ab, hab⟩ := halt hdep
        cases hv2 : env.validate (trimSuffix n (gs ".template.txt")) tb ab
            (pathJoin templateSrcDir n) with
        | ok sb =>
          have hfail : templateFails env templateSrcDir textSrcDir n = false := by
            simp [templateFails, htb, hxb, hv, hdep, hab, hv2]
          simp [importLoop, writeSPDXFiles, writeSPDXFile, getPreChecksBytes,
            htb, hxb, hv, hdep, hab, hv2, hw, List.countP_cons, hfail, ih c hrest]
        | error e2 =>
          have hfail : templateFails env templateSrcDir textSrcDir n = true := by
            simp [templateFails, htb, hxb, hv, hdep, hab, hv2]
          have harith : (c + 1) + List.countP
              (fun m => templateFails env templateSrcDir textSrcDir m) rest
              = c + (List.countP (fun m => templateFails env templateSrcDir textSrcDir m) rest + 1) := by
            omega
          simp [importLoop, writeInvalidSPDXFiles, htb, hxb, hv, hdep, hab, hv2,
            List.countP_cons, hfail, ih (c + 1) hrest, harith]
      · rw [Bool.not_eq_true] at hdep
        have hfail : templateFails env templateSrcDir textSrcDir n = true := by
          simp [templateFails, htb, hxb, hv, hdep]
        have harith : (c + 1) + List.countP
            (fun m => templateFails env templateSrcDir textSrcDir m) rest
            = c + (List.countP (fun m => templateFails env templateSrcDir textSrcDir m) rest + 1) := by
          omega
        simp [importLoop, writeInvalidSPDXFiles, htb, hxb, hv, hdep,
          List.countP_cons, hfail, ih (c + 1) hrest, harith]

/-- C1: over a template source directory whose per-template reads and
destination writes succeed, every per-identifier validation failure in
`importSPDX` increments the error counter while the loop continues with
the remaining templates instead of aborting — the loop returns `ok` with
the starting count plus the number of failing templates — and
`importSPDX` returns an error at the end if and only if that failure
count is nonzero. -/
theorem importSPDX_accumulates_validation_failures
    (env : ImportEnv) (cfg : Config) (thisDir lb v eb : GoStr) (names : List GoStr)
    (hw : ∀ ff b, env.writeFile ff b = none)
    (h1 : env.readFile (pathJoin (resolveAddAllDir cfg thisDir)
        (pathJoin (gs "json") (gs "licenses.json"))) = .ok lb)
    (h2 : env.parseListVersion lb = .ok v)
    (h3 : env.readFile (pathJoin (resolveAddAllDir cfg thisDir)
        (pathJoin (gs "json") (gs "exceptions.json"))) = .ok eb)
    (h4 : env.parseListVersion eb = .ok v)
    (h5 : env.readDir (pathJoin (resolveAddAllDir cfg thisDir) (gs "template")) = .ok names)
    (h6 : names ≠ [])
    (h7 : env.mkdirAllSPDX = .ok ())
    (h8 : ∀ n ∈ names, stepReadsOK env
        (pathJoin (resolveAddAllDir cfg thisDir) (gs "template"))
        (pathJoin (resolveAddAllDir cfg thisDir) (gs "text")) n) :
    (∀ c, (importLoop env (pathJoin (resolveAddAllDir cfg thisDir) (gs "template"))
        (pathJoin (resolveAddAllDir cfg thisDir) (gs "text")) names c).1
      = .ok (c + List.countP (fun n => templateFails env
          (pathJoin (resolveAddAllDir cfg thisDir) (gs "template"))
          (pathJoin (resolveAddAllDir cfg thisDir) (gs "text")) n) names))
    ∧ ((∃ e, (importSPDX env cfg thisDir).1 = .error e)
        ↔ List.countP (fun n => templateFails env
            (pathJoin (resolveAddAllDir cfg thisDir) (gs "template"))
            (pathJoin (resolveAddAllDir cfg thisDir) (gs "text")) n) names ≠ 0) := by
  have hloop := importLoop_counts env
    (pathJoin (resolveAddAllDir cfg thisDir) (gs "template"))
    (pathJoin (resolveAddAllDir cfg thisDir) (gs "text")) hw names
  constructor
  · exact fun c => hloop c h8
  · have hlen : ¬(names.length < 1) := by
      cases names with
      | nil => exact absurd rfl h6
      | cons a l => simp
    have hk := hloop 0 h8
    cases hkk : importLoop env (pathJoin (resolveAddAllDir cfg thisDir) (gs "template"))
        (pathJoin (resolveAddAllDir cfg thisDir) (gs "text")) names 0 with
    | mk res tr =>
      rw [hkk] at hk
      simp only at hk
      subst hk
      by_cases hcount : List.countP (fun n => templateFails env
          (pathJoin (resolveAddAllDir cfg thisDir) (gs "template"))
          (pathJoin (resolveAddAllDir cfg thisDir) (gs "text")) n) names = 0
      · simp [importSPDX, h1, h2, h3, h4, h5, h7, hlen, hkk, hw, writeSPDXFile, hcount]
      · simp [importSPDX, h1, h2, h3, h4, h5, h7, hlen, hkk, hw, writeSPDXFile, hcount,
          Nat.pos_of_ne_zero hcount]

/-- Witness for C1: one template whose validation fails makes the whole
batch fail at the end. -/
theorem importSPDX_accumulates_validation_failures_witness :
    ∃ e, (importSPDX
      ⟨fun _ => .ok (gs "B"), fun _ => .ok [gs "A.template.txt"],
       fun _ => .ok (gs "3.21"), fun _ _ _ _ => .error (gs "nope"),
       .ok (), fun _ _ => none⟩
      (fun _ => gs "a") (gs "r")).1 = .error e :=
  (importSPDX_accumulates_validation_failures
    ⟨fun _ => .ok (gs "B"), fun _ => .ok [gs "A.template.txt"],
     fun _ => .ok (gs "3.21"), fun _ _ _ _ => .error (gs "nope"),
     .ok (), fun _ _ => none⟩
    (fun _ => gs "a") (gs "r") (gs "B") (gs "3.21") (gs "B") [gs "A.template.txt"]
    (fun _ _ => rfl) rfl rfl rfl rfl rfl (by decide) rfl
    (fun n _ => ⟨⟨gs "B", rfl⟩, ⟨gs "B", rfl⟩, fun _ => ⟨gs "B", rfl⟩⟩)).2.mpr
    (by decide)
